import Mathlib

/-!
Verification of the ODP packet descriptor core
(`src/platform/linux-generic/include/api/odp_packet.h`).

The repository ships only the API header: declarations plus their doc
comments. Every operation below is therefore a shallow embedding modelled
from the specification (and the header's documented contracts, which the
spec reproduces). Machine addresses and byte values are `Nat`; fallible
operations return `Option`; state is passed explicitly.
-/

namespace ODP

/-- Modelled from the spec (§3 Segment; the implementation behind
`odp_packet_seg_*` is not in `src/`): a segment is a contiguous memory
region with a fixed capacity and a movable data window inside it.
`base` is the region start address (`odp_packet_seg_addr`), `region` the
region's byte content (its length is the capacity), `head_offset` the
number of bytes from region start to the first data byte (the headroom),
and `data_len` the number of valid data bytes. -/
structure Seg where
  base : Nat
  region : List Nat
  head_offset : Nat
  data_len : Nat
deriving Repr, DecidableEq

/-- Segment capacity: total byte size of the region (`odp_packet_seg_size`). -/
def segCapacity (s : Seg) : Nat := s.region.length

/-- Segment headroom: `seg_data - seg_addr` (`odp_packet_seg_headroom`). -/
def segHeadroom (s : Seg) : Nat := s.head_offset

/-- Segment tailroom: `seg_size - seg_headroom - seg_data_len`
(`odp_packet_seg_tailroom`). -/
def segTailroom (s : Seg) : Nat := segCapacity s - s.head_offset - s.data_len

/-- Segment data address (`odp_packet_seg_data`): region start plus headroom. -/
def segDataAddr (s : Seg) : Nat := s.base + s.head_offset

/-- Segment data bytes: the `data_len` bytes of the region starting at
`head_offset` (`odp_packet_seg_data_len` is their count). -/
def segBytes (s : Seg) : List Nat := (s.region.drop s.head_offset).take s.data_len

/-- Modelled from the spec (§4.1 `push_head`; the body of
`odp_packet_seg_push_head` is not in `src/`): requires `0 ≤ len ≤
head_offset`; on success `head_offset -= len`, `data_len += len` and the
new data start address is returned; on violation the segment is left
unmodified and `none` (NULL) is returned. -/
def odp_packet_seg_push_head (s : Seg) (len : Nat) : Option (Nat × Seg) :=
  if len ≤ s.head_offset then
    let s' : Seg := { s with head_offset := s.head_offset - len,
                             data_len := s.data_len + len }
    some (segDataAddr s', s')
  else
    none

/-- Modelled from the spec (§4.1 `pull_head`; the body of
`odp_packet_seg_pull_head` is not in `src/`): requires `0 ≤ len ≤
data_len`; on success `head_offset += len`, `data_len -= len` and the new
data start address is returned; on violation the segment is left
unmodified and `none` (NULL) is returned. -/
def odp_packet_seg_pull_head (s : Seg) (len : Nat) : Option (Nat × Seg) :=
  if len ≤ s.data_len then
    let s' : Seg := { s with head_offset := s.head_offset + len,
                             data_len := s.data_len - len }
    some (segDataAddr s', s')
  else
    none

/-- Modelled from the spec (§4.1 `push_tail`; the body of
`odp_packet_seg_push_tail` is not in `src/`): requires `0 ≤ len ≤
tail_room`; on success `data_len += len` and the new data length is
returned; on violation the segment is left unmodified and `none` (-1) is
returned. -/
def odp_packet_seg_push_tail (s : Seg) (len : Nat) : Option (Nat × Seg) :=
  if len ≤ segTailroom s then
    let s' : Seg := { s with data_len := s.data_len + len }
    some (s'.data_len, s')
  else
    none

/-- Modelled from the spec (§4.1 `pull_tail`; the body of
`odp_packet_seg_pull_tail` is not in `src/`): requires `0 ≤ len ≤
data_len`; on success `data_len -= len` and the new data length is
returned; on violation the segment is left unmodified and `none` (-1) is
returned. -/
def odp_packet_seg_pull_tail (s : Seg) (len : Nat) : Option (Nat × Seg) :=
  if len ≤ s.data_len then
    let s' : Seg := { s with data_len := s.data_len - len }
    some (s'.data_len, s')
  else
    none

/-- The segment after an attempted `push_head`: the updated segment on
success, the untouched segment on failure (the operation does not modify
the packet in case of an error). -/
def tryPushHead (s : Seg) (len : Nat) : Seg :=
  match odp_packet_seg_push_head s len with
  | some (_, s') => s'
  | none => s

/-- The segment after an attempted `pull_head` (unchanged on failure). -/
def tryPullHead (s : Seg) (len : Nat) : Seg :=
  match odp_packet_seg_pull_head s len with
  | some (_, s') => s'
  | none => s

/-- The segment after an attempted `push_tail` (unchanged on failure). -/
def tryPushTail (s : Seg) (len : Nat) : Seg :=
  match odp_packet_seg_push_tail s len with
  | some (_, s') => s'
  | none => s

/-- The segment after an attempted `pull_tail` (unchanged on failure). -/
def tryPullTail (s : Seg) (len : Nat) : Seg :=
  match odp_packet_seg_pull_tail s len with
  | some (_, s') => s'
  | none => s

/-- The invalid-offset sentinel `ODP_PACKET_OFFSET_INVALID` (the `uint32_t`
"not found" value, distinct from every valid offset and from 0). -/
def ODP_PACKET_OFFSET_INVALID : Nat := 4294967295

/-- The default packet headroom `ODP_CONFIG_PACKET_HEADROOM` reserved at
allocation time (the spec's scenarios use 64). -/
def ODP_CONFIG_PACKET_HEADROOM : Nat := 64

/-- Modelled from the spec (§3 Packet Descriptor; the implementation
behind `odp_packet_*` is not in `src/`): the handle-level view over a
segment chain. `chain` is the ordered segment sequence (segment 0 holds
the lowest-offset bytes), `total_len` the cached aggregate data length,
`l2_offset`/`l3_offset`/`l4_offset` the protocol-layer offsets from the
packet data start (or the invalid sentinel when unset), and
`user_context` the single raw slot shared by the pointer and `uint64`
user-context setters. -/
structure Packet where
  chain : List Seg
  total_len : Nat
  l2_offset : Nat
  l3_offset : Nat
  l4_offset : Nat
  user_context : Nat
deriving Repr, DecidableEq

/-- Total buffer length of the packet: the sum of its segments'
capacities (the chain's total capacity). -/
def pktBufLen (p : Packet) : Nat := (p.chain.map segCapacity).sum

/-- The packet's data bytes: the concatenation of the segments' data
windows, in chain order. -/
def pktBytes (p : Packet) : List Nat := (p.chain.map segBytes).flatten

/-- `odp_packet_get_len`: the packet length in bytes. -/
def odp_packet_get_len (p : Packet) : Nat := p.total_len

/-- `odp_packet_set_len`: raw metadata-only override of the cached length. -/
def odp_packet_set_len (p : Packet) (len : Nat) : Packet :=
  { p with total_len := len }

/-- `odp_packet_addr`: start address of the packet buffer, i.e. the region
start of segment 0 (not the data start - it includes the headroom). -/
def odp_packet_addr (p : Packet) : Option Nat := (p.chain.map Seg.base).head?

/-- `odp_packet_data`: current packet data address, i.e. segment 0's data
start. -/
def odp_packet_data (p : Packet) : Option Nat := (p.chain.map segDataAddr).head?

/-- `odp_packet_l2_offset`: layer 2 start offset (0 by default). -/
def odp_packet_l2_offset (p : Packet) : Nat := p.l2_offset

/-- `odp_packet_l3_offset`: layer 3 start offset, or
`ODP_PACKET_OFFSET_INVALID` if not found. -/
def odp_packet_l3_offset (p : Packet) : Nat := p.l3_offset

/-- `odp_packet_l4_offset`: layer 4 start offset, or
`ODP_PACKET_OFFSET_INVALID` if not found. -/
def odp_packet_l4_offset (p : Packet) : Nat := p.l4_offset

/-- Modelled from the spec (§4.2 offset setters; the body of
`odp_packet_l2_offset_set` is not in `src/`): requires
`0 ≤ offset < total_len` (offset range `0 ... odp_packet_len()-1`); the
packet is not modified on an error. -/
def odp_packet_l2_offset_set (p : Packet) (offset : Nat) : Option Packet :=
  if offset < p.total_len then some { p with l2_offset := offset } else none

/-- Modelled from the spec (§4.2 offset setters; the body of
`odp_packet_l3_offset_set` is not in `src/`): same contract for layer 3. -/
def odp_packet_l3_offset_set (p : Packet) (offset : Nat) : Option Packet :=
  if offset < p.total_len then some { p with l3_offset := offset } else none

/-- Modelled from the spec (§4.2 offset setters; the body of
`odp_packet_l4_offset_set` is not in `src/`): same contract for layer 4. -/
def odp_packet_l4_offset_set (p : Packet) (offset : Nat) : Option Packet :=
  if offset < p.total_len then some { p with l4_offset := offset } else none

/-- Modelled from the spec (§4.2 `reset`; the body of `odp_packet_reset`
is not in `src/`): reinitializes all packet metadata to defaults
(`l2_offset = 0`, `l3_offset`/`l4_offset` unset, context cleared,
`total_len = len`) provided `len` is less than the total buffer length of
the packet minus the default headroom; the packet is not modified on
failure (`none` models the non-zero failure return). -/
def odp_packet_reset (p : Packet) (len : Nat) : Option Packet :=
  if len < pktBufLen p - ODP_CONFIG_PACKET_HEADROOM then
    some { p with total_len := len,
                  l2_offset := 0,
                  l3_offset := ODP_PACKET_OFFSET_INVALID,
                  l4_offset := ODP_PACKET_OFFSET_INVALID,
                  user_context := 0 }
  else
    none

/-- `odp_packet_user_ptr`: the user context slot read back as an address. -/
def odp_packet_user_ptr (p : Packet) : Nat := p.user_context

/-- Modelled from the spec (§4.3; the body of `odp_packet_user_ptr_set`
is not in `src/`): stores the context pointer in the single shared slot -
the latest context set operation determines what is stored. -/
def odp_packet_user_ptr_set (p : Packet) (ctx : Nat) : Packet :=
  { p with user_context := ctx }

/-- `odp_packet_user_u64`: the user context slot reinterpreted as a
`uint64_t` value. -/
def odp_packet_user_u64 (p : Packet) : Nat := p.user_context % 2 ^ 64

/-- Modelled from the spec (§4.3; the body of `odp_packet_user_u64_set`
is not in `src/`): stores the `uint64_t` context in the same shared slot,
overwriting whatever the pointer setter wrote. -/
def odp_packet_user_u64_set (p : Packet) (ctx : Nat) : Packet :=
  { p with user_context := ctx % 2 ^ 64 }

/-- The packet after an attempted `odp_packet_reset` (unchanged on failure). -/
def tryReset (p : Packet) (len : Nat) : Packet := (odp_packet_reset p len).getD p

/-- The packet after an attempted `odp_packet_l2_offset_set` (unchanged on
failure). -/
def tryL2OffsetSet (p : Packet) (offset : Nat) : Packet :=
  (odp_packet_l2_offset_set p offset).getD p

/-- The packet after an attempted `odp_packet_l3_offset_set` (unchanged on
failure). -/
def tryL3OffsetSet (p : Packet) (offset : Nat) : Packet :=
  (odp_packet_l3_offset_set p offset).getD p

/-- The packet after an attempted `odp_packet_l4_offset_set` (unchanged on
failure). -/
def tryL4OffsetSet (p : Packet) (offset : Nat) : Packet :=
  (odp_packet_l4_offset_set p offset).getD p

/-- Modelled from the spec (§9 aliasing note; the buffer type is declared
in `odp_buffer.h`, outside `src/`): a generic pooled-buffer identity is a
typed wrapper view over the same storage a packet descriptor views, with
the pool's type tag recording whether the storage was created as
packet-typed. -/
structure odp_buffer_t where
  typed_packet : Bool
  store : Packet
deriving Repr, DecidableEq

/-- Modelled from the spec (§4.4 `from_buffer`; the body of
`odp_packet_from_buffer` is not in `src/`): a zero-cost identity cast of
the buffer view to the packet view over the same storage. -/
def odp_packet_from_buffer (b : odp_buffer_t) : Packet := b.store

/-- Modelled from the spec (§4.4 `to_buffer`; the body of
`odp_packet_to_buffer` is not in `src/`): the inverse identity cast; the
storage a packet views is always packet-typed. -/
def odp_packet_to_buffer (p : Packet) : odp_buffer_t :=
  { typed_packet := true, store := p }

/-- Overwrite a segment's data window with a prefix of `bytes`, filling as
much of its capacity as `bytes` provides: headroom becomes 0, the data
length is the number of bytes written, the region keeps its capacity. -/
def fillSeg (s : Seg) (bytes : List Nat) : Seg :=
  { s with head_offset := 0,
           data_len := min bytes.length (segCapacity s),
           region := bytes.take (segCapacity s)
                       ++ s.region.drop (min bytes.length (segCapacity s)) }

/-- Distribute `bytes` over a chain's segments greedily in order, keeping
each segment's capacity; destination segment boundaries need not match
the source's segmentation. -/
def fillChain : List Seg → List Nat → List Seg
  | [], _ => []
  | s :: rest, bytes => fillSeg s bytes :: fillChain rest (bytes.drop (segCapacity s))

/-- Modelled from the spec (§4.4 `copy`; the body of `odp_packet_copy` is
not in `src/`): deep-copies all metadata fields (offsets, context,
length) and all segment data bytes from `src` into `dst`; requires
`dst`'s total capacity to be at least `src`'s `total_len`; on
insufficient capacity fails (`none`) and leaves `dst` unmodified. -/
def odp_packet_copy (dst src : Packet) : Option Packet :=
  if src.total_len ≤ pktBufLen dst then
    some { chain := fillChain dst.chain (pktBytes src),
           total_len := src.total_len,
           l2_offset := src.l2_offset,
           l3_offset := src.l3_offset,
           l4_offset := src.l4_offset,
           user_context := src.user_context }
  else
    none

/-- The destination packet after an attempted `odp_packet_copy`
(unchanged on failure). -/
def tryCopy (dst src : Packet) : Packet := (odp_packet_copy dst src).getD dst

/-- Modelled from the spec (§4.1; the packet-level entry point
`odp_packet_seg_push_head(pkt, seg, len)` is not in `src/`): apply
`push_head` to the chain segment addressed by index `i`; fails on an
out-of-range segment handle or a violated length constraint, and the
packet is not modified on an error. -/
def pktSegPushHead (p : Packet) (i len : Nat) : Option (Nat × Packet) :=
  match p.chain[i]? with
  | none => none
  | some s =>
    match odp_packet_seg_push_head s len with
    | none => none
    | some (a, s') => some (a, { p with chain := p.chain.set i s' })

/-- Modelled from the spec (§4.1): packet-level `pull_head` on the chain
segment at index `i`; the packet is not modified on an error. -/
def pktSegPullHead (p : Packet) (i len : Nat) : Option (Nat × Packet) :=
  match p.chain[i]? with
  | none => none
  | some s =>
    match odp_packet_seg_pull_head s len with
    | none => none
    | some (a, s') => some (a, { p with chain := p.chain.set i s' })

/-- Modelled from the spec (§4.1): packet-level `push_tail` on the chain
segment at index `i`; the packet is not modified on an error. -/
def pktSegPushTail (p : Packet) (i len : Nat) : Option (Nat × Packet) :=
  match p.chain[i]? with
  | none => none
  | some s =>
    match odp_packet_seg_push_tail s len with
    | none => none
    | some (d, s') => some (d, { p with chain := p.chain.set i s' })

/-- Modelled from the spec (§4.1): packet-level `pull_tail` on the chain
segment at index `i`; the packet is not modified on an error. -/
def pktSegPullTail (p : Packet) (i len : Nat) : Option (Nat × Packet) :=
  match p.chain[i]? with
  | none => none
  | some s =>
    match odp_packet_seg_pull_tail s len with
    | none => none
    | some (d, s') => some (d, { p with chain := p.chain.set i s' })

/-- The packet after an attempted packet-level `push_head` (unchanged on
failure). -/
def tryPktPushHead (p : Packet) (i len : Nat) : Packet :=
  match pktSegPushHead p i len with
  | some (_, p') => p'
  | none => p

/-- The packet after an attempted packet-level `pull_head` (unchanged on
failure). -/
def tryPktPullHead (p : Packet) (i len : Nat) : Packet :=
  match pktSegPullHead p i len with
  | some (_, p') => p'
  | none => p

/-- The packet after an attempted packet-level `push_tail` (unchanged on
failure). -/
def tryPktPushTail (p : Packet) (i len : Nat) : Packet :=
  match pktSegPushTail p i len with
  | some (_, p') => p'
  | none => p

/-- The packet after an attempted packet-level `pull_tail` (unchanged on
failure). -/
def tryPktPullTail (p : Packet) (i len : Nat) : Packet :=
  match pktSegPullTail p i len with
  | some (_, p') => p'
  | none => p

/-! ### Helper lemmas on the segment primitives -/

theorem tryPushHead_of_le (s : Seg) (len : Nat) (h : len ≤ s.head_offset) :
    tryPushHead s len
      = { s with head_offset := s.head_offset - len, data_len := s.data_len + len } := by
  simp [tryPushHead, odp_packet_seg_push_head, h]

theorem tryPushHead_of_gt (s : Seg) (len : Nat) (h : s.head_offset < len) :
    tryPushHead s len = s := by
  have h' : ¬ len ≤ s.head_offset := by omega
  simp [tryPushHead, odp_packet_seg_push_head, h']

theorem tryPullHead_of_le (s : Seg) (len : Nat) (h : len ≤ s.data_len) :
    tryPullHead s len
      = { s with head_offset := s.head_offset + len, data_len := s.data_len - len } := by
  simp [tryPullHead, odp_packet_seg_pull_head, h]

theorem tryPullHead_of_gt (s : Seg) (len : Nat) (h : s.data_len < len) :
    tryPullHead s len = s := by
  have h' : ¬ len ≤ s.data_len := by omega
  simp [tryPullHead, odp_packet_seg_pull_head, h']

theorem tryPushTail_of_le (s : Seg) (len : Nat) (h : len ≤ segTailroom s) :
    tryPushTail s len = { s with data_len := s.data_len + len } := by
  simp [tryPushTail, odp_packet_seg_push_tail, h]

theorem tryPushTail_of_gt (s : Seg) (len : Nat) (h : segTailroom s < len) :
    tryPushTail s len = s := by
  have h' : ¬ len ≤ segTailroom s := by omega
  simp [tryPushTail, odp_packet_seg_push_tail, h']

theorem tryPullTail_of_le (s : Seg) (len : Nat) (h : len ≤ s.data_len) :
    tryPullTail s len = { s with data_len := s.data_len - len } := by
  simp [tryPullTail, odp_packet_seg_pull_tail, h]

theorem tryPullTail_of_gt (s : Seg) (len : Nat) (h : s.data_len < len) :
    tryPullTail s len = s := by
  have h' : ¬ len ≤ s.data_len := by omega
  simp [tryPullTail, odp_packet_seg_pull_tail, h']

/-! ### Claim theorems -/

/-- C1 (counterexample): `pull_head` with `len` equal to the full data
length is a successful pull (its documented range is `0 ... seg_data_len`),
yet it leaves the segment with `data_len = 0`, so the claimed invariant
`data_len ≥ 1` after every successful push/pull fails. -/
theorem pull_head_empties_segment :
    (odp_packet_seg_pull_head
        { base := 0, region := [7], head_offset := 0, data_len := 1 } 1).isSome = true
    ∧ (tryPullHead
        { base := 0, region := [7], head_offset := 0, data_len := 1 } 1).data_len < 1 := by
  decide

/-- C1 (amended): for a segment with `head_offset + data_len ≤ capacity`
and `data_len ≥ 1`, every push/pull primitive (successful or rejected)
preserves `head_offset + data_len ≤ capacity`; `data_len ≥ 1` is
preserved by `push_head` and `push_tail`, and holds after `pull_head` or
`pull_tail` whenever `len < data_len` (a pull of exactly `data_len`
empties the segment). -/
theorem seg_invariant_preserved (s : Seg) (len : Nat)
    (hcap : s.head_offset + s.data_len ≤ segCapacity s)
    (hdl : 1 ≤ s.data_len) :
    ((tryPushHead s len).head_offset + (tryPushHead s len).data_len
        ≤ segCapacity (tryPushHead s len)
      ∧ 1 ≤ (tryPushHead s len).data_len)
    ∧ ((tryPullHead s len).head_offset + (tryPullHead s len).data_len
        ≤ segCapacity (tryPullHead s len))
    ∧ (len < s.data_len → 1 ≤ (tryPullHead s len).data_len)
    ∧ ((tryPushTail s len).head_offset + (tryPushTail s len).data_len
        ≤ segCapacity (tryPushTail s len)
      ∧ 1 ≤ (tryPushTail s len).data_len)
    ∧ ((tryPullTail s len).head_offset + (tryPullTail s len).data_len
        ≤ segCapacity (tryPullTail s len))
    ∧ (len < s.data_len → 1 ≤ (tryPullTail s len).data_len) := by
  simp only [segCapacity] at hcap
  refine ⟨⟨?_, ?_⟩, ?_, ?_, ⟨?_, ?_⟩, ?_, ?_⟩
  · by_cases h : len ≤ s.head_offset
    · rw [tryPushHead_of_le s len h]
      show s.head_offset - len + (s.data_len + len) ≤ s.region.length
      omega
    · rw [tryPushHead_of_gt s len (by omega)]
      show s.head_offset + s.data_len ≤ s.region.length
      omega
  · by_cases h : len ≤ s.head_offset
    · rw [tryPushHead_of_le s len h]
      show 1 ≤ s.data_len + len
      omega
    · rw [tryPushHead_of_gt s len (by omega)]
      omega
  · by_cases h : len ≤ s.data_len
    · rw [tryPullHead_of_le s len h]
      show s.head_offset + len + (s.data_len - len) ≤ s.region.length
      omega
    · rw [tryPullHead_of_gt s len (by omega)]
      show s.head_offset + s.data_len ≤ s.region.length
      omega
  · intro hlt
    rw [tryPullHead_of_le s len (by omega)]
    show 1 ≤ s.data_len - len
    omega
  · by_cases h : len ≤ segTailroom s
    · rw [tryPushTail_of_le s len h]
      simp only [segTailroom, segCapacity] at h
      show s.head_offset + (s.data_len + len) ≤ s.region.length
      omega
    · rw [tryPushTail_of_gt s len (by omega)]
      show s.head_offset + s.data_len ≤ s.region.length
      omega
  · by_cases h : len ≤ segTailroom s
    · rw [tryPushTail_of_le s len h]
      show 1 ≤ s.data_len + len
      omega
    · rw [tryPushTail_of_gt s len (by omega)]
      omega
  · by_cases h : len ≤ s.data_len
    · rw [tryPullTail_of_le s len h]
      show s.head_offset + (s.data_len - len) ≤ s.region.length
      omega
    · rw [tryPullTail_of_gt s len (by omega)]
      show s.head_offset + s.data_len ≤ s.region.length
      omega
  · intro hlt
    rw [tryPullTail_of_le s len (by omega)]
    show 1 ≤ s.data_len - len
    omega

/-- C1 (witness): the amended invariant instantiated on a concrete
segment (capacity 10, headroom 4, data length 3) and `len = 2`. -/
theorem seg_invariant_preserved_witness :
    (4 + 3 ≤ segCapacity { base := 100, region := [0, 0, 0, 0, 0, 0, 0, 0, 0, 0],
                           head_offset := 4, data_len := 3 }
      ∧ (2 : Nat) < 3)
    ∧ 1 ≤ (tryPullHead { base := 100, region := [0, 0, 0, 0, 0, 0, 0, 0, 0, 0],
                         head_offset := 4, data_len := 3 } 2).data_len :=
  ⟨by decide,
   (seg_invariant_preserved
      { base := 100, region := [0, 0, 0, 0, 0, 0, 0, 0, 0, 0],
        head_offset := 4, data_len := 3 } 2
      (by decide) (by decide)).2.2.1 (by decide)⟩

/-- C2: `push_head(s, len)` with `len ≤ head_offset` succeeds, sets
`head_offset` to `head_offset - len` and `data_len` to `data_len + len`,
and returns the new data start address; with `len > head_offset` it
returns `none` (NULL) and leaves the segment unmodified. -/
theorem odp_packet_seg_push_head_spec (s : Seg) (len : Nat) :
    (len ≤ s.head_offset →
      odp_packet_seg_push_head s len
        = some (s.base + (s.head_offset - len),
            { s with head_offset := s.head_offset - len,
                     data_len := s.data_len + len }))
    ∧ (s.head_offset < len →
        odp_packet_seg_push_head s len = none ∧ tryPushHead s len = s) := by
  constructor
  · intro h
    simp [odp_packet_seg_push_head, segDataAddr, h]
  · intro h
    have h' : ¬ len ≤ s.head_offset := by omega
    exact ⟨by simp [odp_packet_seg_push_head, h'], tryPushHead_of_gt s len h⟩

/-- C2 (witness): the `push_head` contract on a concrete segment, both
the successful call (`len = 2 ≤ head_offset = 4`) and the rejected one
(`len = 5 > 4`). -/
theorem odp_packet_seg_push_head_spec_witness :
    odp_packet_seg_push_head
        { base := 100, region := [0, 0, 0, 0, 0, 0, 0, 0, 0, 0],
          head_offset := 4, data_len := 3 } 2
      = some (102, { base := 100, region := [0, 0, 0, 0, 0, 0, 0, 0, 0, 0],
                     head_offset := 2, data_len := 5 })
    ∧ odp_packet_seg_push_head
        { base := 100, region := [0, 0, 0, 0, 0, 0, 0, 0, 0, 0],
          head_offset := 4, data_len := 3 } 5 = none :=
  ⟨(odp_packet_seg_push_head_spec
      { base := 100, region := [0, 0, 0, 0, 0, 0, 0, 0, 0, 0],
        head_offset := 4, data_len := 3 } 2).1 (by decide),
   ((odp_packet_seg_push_head_spec
      { base := 100, region := [0, 0, 0, 0, 0, 0, 0, 0, 0, 0],
        head_offset := 4, data_len := 3 } 5).2 (by decide)).1⟩

/-- C3: `push_head(s, n)` followed by `pull_head(s, n)` restores
`head_offset` and `data_len` for every `n` within the original headroom,
and `push_tail(s, n)` followed by `pull_tail(s, n)` restores `data_len`
for every `n` within the original tailroom. -/
theorem push_pull_roundtrip (s : Seg) (n : Nat) :
    (n ≤ segHeadroom s →
      (tryPullHead (tryPushHead s n) n).head_offset = s.head_offset
      ∧ (tryPullHead (tryPushHead s n) n).data_len = s.data_len)
    ∧ (n ≤ segTailroom s →
        (tryPullTail (tryPushTail s n) n).data_len = s.data_len) := by
  constructor
  · intro h
    simp only [segHeadroom] at h
    rw [tryPushHead_of_le s n h]
    rw [tryPullHead_of_le _ n (by show n ≤ s.data_len + n; omega)]
    constructor
    · show s.head_offset - n + n = s.head_offset
      omega
    · show s.data_len + n - n = s.data_len
      omega
  · intro h
    rw [tryPushTail_of_le s n h]
    rw [tryPullTail_of_le _ n (by show n ≤ s.data_len + n; omega)]
    show s.data_len + n - n = s.data_len
    omega

/-- C3 (witness): the round trip instantiated on a concrete segment
(headroom 4, data length 3, tailroom 3) with `n = 3`. -/
theorem push_pull_roundtrip_witness :
    ((3 : Nat) ≤ segHeadroom { base := 100, region := [0, 0, 0, 0, 0, 0, 0, 0, 0, 0],
                               head_offset := 4, data_len := 3 })
    ∧ (tryPullHead (tryPushHead { base := 100, region := [0, 0, 0, 0, 0, 0, 0, 0, 0, 0],
                                  head_offset := 4, data_len := 3 } 3) 3).head_offset = 4
    ∧ (tryPullHead (tryPushHead { base := 100, region := [0, 0, 0, 0, 0, 0, 0, 0, 0, 0],
                                  head_offset := 4, data_len := 3 } 3) 3).data_len = 3 :=
  ⟨by decide,
   (push_pull_roundtrip
      { base := 100, region := [0, 0, 0, 0, 0, 0, 0, 0, 0, 0],
        head_offset := 4, data_len := 3 } 3).1 (by decide)⟩

/-- C4: each push/pull primitive called with `len` exactly one past its
documented limit (`push_head` at `head_offset + 1`, `pull_head` at
`data_len + 1`, `push_tail` at `tail_room + 1`, `pull_tail` at
`data_len + 1`) returns its error result (`none`, modelling NULL / -1)
and leaves the segment's entire state unchanged. -/
theorem push_pull_boundary_rejection (s : Seg) :
    odp_packet_seg_push_head s (segHeadroom s + 1) = none
    ∧ tryPushHead s (segHeadroom s + 1) = s
    ∧ odp_packet_seg_pull_head s (s.data_len + 1) = none
    ∧ tryPullHead s (s.data_len + 1) = s
    ∧ odp_packet_seg_push_tail s (segTailroom s + 1) = none
    ∧ tryPushTail s (segTailroom s + 1) = s
    ∧ odp_packet_seg_pull_tail s (s.data_len + 1) = none
    ∧ tryPullTail s (s.data_len + 1) = s := by
  have h1 : ¬ segHeadroom s + 1 ≤ s.head_offset := by
    simp only [segHeadroom]; omega
  have h2 : ¬ s.data_len + 1 ≤ s.data_len := by omega
  have h3 : ¬ segTailroom s + 1 ≤ segTailroom s := by omega
  refine ⟨?_, ?_, ?_, ?_, ?_, ?_, ?_, ?_⟩
  · simp [odp_packet_seg_push_head, h1]
  · exact tryPushHead_of_gt s _ (by simp only [segHeadroom] at h1 ⊢; omega)
  · simp [odp_packet_seg_pull_head, h2]
  · exact tryPullHead_of_gt s _ (by omega)
  · simp [odp_packet_seg_push_tail, h3]
  · exact tryPushTail_of_gt s _ (by omega)
  · simp [odp_packet_seg_pull_tail, h2]
  · exact tryPullTail_of_gt s _ (by omega)

/-- C5: `odp_packet_reset(pkt, len)` succeeds exactly when `len` is less
than the packet's total buffer length minus the default headroom; on
success `odp_packet_get_len` returns `len`, `l2_offset` is 0,
`l3_offset`/`l4_offset` are `ODP_PACKET_OFFSET_INVALID` and the user
context is cleared; on failure the packet is unchanged and a non-zero
result (`none`) is returned. -/
theorem odp_packet_reset_spec (p : Packet) (len : Nat) :
    ((odp_packet_reset p len).isSome = true
      ↔ len < pktBufLen p - ODP_CONFIG_PACKET_HEADROOM)
    ∧ (len < pktBufLen p - ODP_CONFIG_PACKET_HEADROOM →
        odp_packet_get_len (tryReset p len) = len
        ∧ odp_packet_l2_offset (tryReset p len) = 0
        ∧ odp_packet_l3_offset (tryReset p len) = ODP_PACKET_OFFSET_INVALID
        ∧ odp_packet_l4_offset (tryReset p len) = ODP_PACKET_OFFSET_INVALID
        ∧ (tryReset p len).user_context = 0)
    ∧ (pktBufLen p - ODP_CONFIG_PACKET_HEADROOM ≤ len →
        odp_packet_reset p len = none ∧ tryReset p len = p) := by
  refine ⟨?_, ?_, ?_⟩
  · by_cases h : len < pktBufLen p - ODP_CONFIG_PACKET_HEADROOM
    · simp [odp_packet_reset, h]
    · simp [odp_packet_reset, h]
  · intro h
    simp [tryReset, odp_packet_reset, h, odp_packet_get_len, odp_packet_l2_offset,
          odp_packet_l3_offset, odp_packet_l4_offset]
  · intro h
    have h' : ¬ len < pktBufLen p - ODP_CONFIG_PACKET_HEADROOM := by omega
    simp [tryReset, odp_packet_reset, h']

/-- C5 (witness): reset of a concrete one-segment packet of buffer length
80 to length 10 (`10 < 80 - 64`). -/
theorem odp_packet_reset_spec_witness :
    ((10 : Nat) < pktBufLen { chain := [{ base := 100, region := List.replicate 80 0,
                                          head_offset := 64, data_len := 5 }],
                              total_len := 5, l2_offset := 0, l3_offset := 7,
                              l4_offset := 9, user_context := 3 }
        - ODP_CONFIG_PACKET_HEADROOM)
    ∧ odp_packet_get_len
        (tryReset { chain := [{ base := 100, region := List.replicate 80 0,
                                head_offset := 64, data_len := 5 }],
                    total_len := 5, l2_offset := 0, l3_offset := 7,
                    l4_offset := 9, user_context := 3 } 10) = 10
    ∧ odp_packet_l2_offset
        (tryReset { chain := [{ base := 100, region := List.replicate 80 0,
                                head_offset := 64, data_len := 5 }],
                    total_len := 5, l2_offset := 0, l3_offset := 7,
                    l4_offset := 9, user_context := 3 } 10) = 0
    ∧ odp_packet_l3_offset
        (tryReset { chain := [{ base := 100, region := List.replicate 80 0,
                                head_offset := 64, data_len := 5 }],
                    total_len := 5, l2_offset := 0, l3_offset := 7,
                    l4_offset := 9, user_context := 3 } 10)
      = ODP_PACKET_OFFSET_INVALID
    ∧ odp_packet_l4_offset
        (tryReset { chain := [{ base := 100, region := List.replicate 80 0,
                                head_offset := 64, data_len := 5 }],
                    total_len := 5, l2_offset := 0, l3_offset := 7,
                    l4_offset := 9, user_context := 3 } 10)
      = ODP_PACKET_OFFSET_INVALID
    ∧ (tryReset { chain := [{ base := 100, region := List.replicate 80 0,
                              head_offset := 64, data_len := 5 }],
                  total_len := 5, l2_offset := 0, l3_offset := 7,
                  l4_offset := 9, user_context := 3 } 10).user_context = 0 :=
  ⟨by decide,
   (odp_packet_reset_spec
      { chain := [{ base := 100, region := List.replicate 80 0,
                    head_offset := 64, data_len := 5 }],
        total_len := 5, l2_offset := 0, l3_offset := 7,
        l4_offset := 9, user_context := 3 } 10).2.1 (by decide)⟩

/-- C6: each of the `l2/l3/l4` offset setters succeeds exactly when
`offset < total_len` (in particular `offset = total_len` fails), on
failure the descriptor is unchanged, and in the freshly reset state the
`l3`/`l4` getters return `ODP_PACKET_OFFSET_INVALID` while the `l2`
getter returns 0. -/
theorem offset_set_spec (p : Packet) (offset len : Nat) :
    ((odp_packet_l2_offset_set p offset).isSome = true
      ↔ offset < odp_packet_get_len p)
    ∧ ((odp_packet_l3_offset_set p offset).isSome = true
      ↔ offset < odp_packet_get_len p)
    ∧ ((odp_packet_l4_offset_set p offset).isSome = true
      ↔ offset < odp_packet_get_len p)
    ∧ odp_packet_l2_offset_set p (odp_packet_get_len p) = none
    ∧ odp_packet_l3_offset_set p (odp_packet_get_len p) = none
    ∧ odp_packet_l4_offset_set p (odp_packet_get_len p) = none
    ∧ (odp_packet_get_len p ≤ offset →
        tryL2OffsetSet p offset = p
        ∧ tryL3OffsetSet p offset = p
        ∧ tryL4OffsetSet p offset = p)
    ∧ (len < pktBufLen p - ODP_CONFIG_PACKET_HEADROOM →
        odp_packet_l2_offset (tryReset p len) = 0
        ∧ odp_packet_l3_offset (tryReset p len) = ODP_PACKET_OFFSET_INVALID
        ∧ odp_packet_l4_offset (tryReset p len) = ODP_PACKET_OFFSET_INVALID) := by
  refine ⟨?_, ?_, ?_, ?_, ?_, ?_, ?_, ?_⟩
  · by_cases h : offset < p.total_len
    · simp [odp_packet_l2_offset_set, odp_packet_get_len, h]
    · simp [odp_packet_l2_offset_set, odp_packet_get_len, h]
  · by_cases h : offset < p.total_len
    · simp [odp_packet_l3_offset_set, odp_packet_get_len, h]
    · simp [odp_packet_l3_offset_set, odp_packet_get_len, h]
  · by_cases h : offset < p.total_len
    · simp [odp_packet_l4_offset_set, odp_packet_get_len, h]
    · simp [odp_packet_l4_offset_set, odp_packet_get_len, h]
  · simp [odp_packet_l2_offset_set, odp_packet_get_len]
  · simp [odp_packet_l3_offset_set, odp_packet_get_len]
  · simp [odp_packet_l4_offset_set, odp_packet_get_len]
  · intro h
    have h' : ¬ offset < p.total_len := by
      simp only [odp_packet_get_len] at h; omega
    exact ⟨by simp [tryL2OffsetSet, odp_packet_l2_offset_set, h'],
           by simp [tryL3OffsetSet, odp_packet_l3_offset_set, h'],
           by simp [tryL4OffsetSet, odp_packet_l4_offset_set, h']⟩
  · intro h
    simp [tryReset, odp_packet_reset, h, odp_packet_l2_offset,
          odp_packet_l3_offset, odp_packet_l4_offset]

/-- C6 (witness): on a concrete packet of length 60, `l3_offset_set` at
14 succeeds, at 60 (`= total_len`) fails and leaves the descriptor
unchanged. -/
theorem offset_set_spec_witness :
    (odp_packet_get_len { chain := [{ base := 100, region := List.replicate 80 0,
                                      head_offset := 10, data_len := 60 }],
                          total_len := 60, l2_offset := 0,
                          l3_offset := ODP_PACKET_OFFSET_INVALID,
                          l4_offset := ODP_PACKET_OFFSET_INVALID, user_context := 0 }
        ≤ (60 : Nat))
    ∧ tryL3OffsetSet { chain := [{ base := 100, region := List.replicate 80 0,
                                   head_offset := 10, data_len := 60 }],
                       total_len := 60, l2_offset := 0,
                       l3_offset := ODP_PACKET_OFFSET_INVALID,
                       l4_offset := ODP_PACKET_OFFSET_INVALID, user_context := 0 } 60
      = { chain := [{ base := 100, region := List.replicate 80 0,
                      head_offset := 10, data_len := 60 }],
          total_len := 60, l2_offset := 0,
          l3_offset := ODP_PACKET_OFFSET_INVALID,
          l4_offset := ODP_PACKET_OFFSET_INVALID, user_context := 0 } :=
  ⟨by decide,
   ((offset_set_spec
      { chain := [{ base := 100, region := List.replicate 80 0,
                    head_offset := 10, data_len := 60 }],
        total_len := 60, l2_offset := 0,
        l3_offset := ODP_PACKET_OFFSET_INVALID,
        l4_offset := ODP_PACKET_OFFSET_INVALID, user_context := 0 } 60
      0).2.2.2.2.2.2.1 (by decide)).2.1⟩

/-- C7: for a buffer created as packet-typed pool storage,
`to_buffer(from_buffer(b)) = b`, and `from_buffer(to_buffer(p)) = p` for
every packet; the conversions are identity reinterpretations of the same
storage. -/
theorem buffer_packet_roundtrip (b : odp_buffer_t) (p : Packet) :
    (b.typed_packet = true →
      odp_packet_to_buffer (odp_packet_from_buffer b) = b)
    ∧ odp_packet_from_buffer (odp_packet_to_buffer p) = p := by
  constructor
  · intro h
    cases b with
    | mk t st =>
      simp only at h
      simp [odp_packet_to_buffer, odp_packet_from_buffer, h]
  · rfl

/-- C7 (witness): the round trip on a concrete packet-typed buffer. -/
theorem buffer_packet_roundtrip_witness :
    odp_packet_to_buffer
        (odp_packet_from_buffer
          { typed_packet := true,
            store := { chain := [], total_len := 0, l2_offset := 0,
                       l3_offset := 0, l4_offset := 0, user_context := 0 } })
      = { typed_packet := true,
          store := { chain := [], total_len := 0, l2_offset := 0,
                     l3_offset := 0, l4_offset := 0, user_context := 0 } } :=
  (buffer_packet_roundtrip
    { typed_packet := true,
      store := { chain := [], total_len := 0, l2_offset := 0,
                 l3_offset := 0, l4_offset := 0, user_context := 0 } }
    { chain := [], total_len := 0, l2_offset := 0,
      l3_offset := 0, l4_offset := 0, user_context := 0 }).1 rfl

theorem segBytes_fillSeg (s : Seg) (bytes : List Nat) :
    segBytes (fillSeg s bytes) = bytes.take (segCapacity s) := by
  have h : (bytes.take (segCapacity s)).length = min bytes.length (segCapacity s) := by
    rw [List.length_take, Nat.min_comm]
  simp only [segBytes, fillSeg, List.drop_zero]
  exact List.take_left' h

theorem flatten_fillChain (segs : List Seg) (bytes : List Nat) :
    ((fillChain segs bytes).map segBytes).flatten
      = bytes.take ((segs.map segCapacity).sum) := by
  induction segs generalizing bytes with
  | nil => simp [fillChain]
  | cons s rest ih =>
    simp [fillChain, segBytes_fillSeg, ih, List.take_add]

theorem pktBytes_fillChain (dst : Packet) (bytes : List Nat)
    (h : bytes.length ≤ pktBufLen dst) (q : Packet)
    (hq : q.chain = fillChain dst.chain bytes) : pktBytes q = bytes := by
  rw [pktBytes, hq, flatten_fillChain]
  exact List.take_of_length_le h

/-- C8: `copy(dst, src)` with `dst`'s total capacity at least `src`'s
length succeeds, and afterwards `dst`'s length, `l2/l3/l4` offsets and
user context equal `src`'s and `dst`'s packet data bytes equal `src`'s,
regardless of differing segmentation; with insufficient capacity the call
fails and `dst` is unmodified. (`src` is assumed consistent: its cached
`total_len` equals its number of data bytes.) -/
theorem odp_packet_copy_spec (dst src : Packet)
    (hlen : src.total_len = (pktBytes src).length) :
    (src.total_len ≤ pktBufLen dst →
      (odp_packet_copy dst src).isSome = true
      ∧ odp_packet_get_len (tryCopy dst src) = odp_packet_get_len src
      ∧ odp_packet_l2_offset (tryCopy dst src) = odp_packet_l2_offset src
      ∧ odp_packet_l3_offset (tryCopy dst src) = odp_packet_l3_offset src
      ∧ odp_packet_l4_offset (tryCopy dst src) = odp_packet_l4_offset src
      ∧ (tryCopy dst src).user_context = src.user_context
      ∧ pktBytes (tryCopy dst src) = pktBytes src)
    ∧ (pktBufLen dst < src.total_len →
        odp_packet_copy dst src = none ∧ tryCopy dst src = dst) := by
  constructor
  · intro hcap
    have hc : tryCopy dst src
        = { chain := fillChain dst.chain (pktBytes src),
            total_len := src.total_len,
            l2_offset := src.l2_offset,
            l3_offset := src.l3_offset,
            l4_offset := src.l4_offset,
            user_context := src.user_context } := by
      simp [tryCopy, odp_packet_copy, hcap]
    refine ⟨by simp [odp_packet_copy, hcap], ?_, ?_, ?_, ?_, ?_, ?_⟩
    · rw [hc]; rfl
    · rw [hc]; rfl
    · rw [hc]; rfl
    · rw [hc]; rfl
    · rw [hc]
    · exact pktBytes_fillChain dst (pktBytes src) (by omega) _ (by rw [hc])
  · intro hcap
    have h' : ¬ src.total_len ≤ pktBufLen dst := by omega
    simp [tryCopy, odp_packet_copy, h']

/-- C8 (witness): copying a one-segment source of 3 data bytes into a
two-segment destination of total capacity 7 (differing segmentation)
reproduces the source bytes. -/
theorem odp_packet_copy_spec_witness :
    ((3 : Nat)
        ≤ pktBufLen { chain := [{ base := 0, region := [9, 9, 9], head_offset := 0,
                                  data_len := 1 },
                                { base := 10, region := [9, 9, 9, 9], head_offset := 0,
                                  data_len := 1 }],
                      total_len := 2, l2_offset := 0, l3_offset := 0,
                      l4_offset := 0, user_context := 0 })
    ∧ pktBytes
        (tryCopy { chain := [{ base := 0, region := [9, 9, 9], head_offset := 0,
                               data_len := 1 },
                             { base := 10, region := [9, 9, 9, 9], head_offset := 0,
                               data_len := 1 }],
                   total_len := 2, l2_offset := 0, l3_offset := 0,
                   l4_offset := 0, user_context := 0 }
                 { chain := [{ base := 50, region := [1, 2, 3, 4, 5], head_offset := 1,
                               data_len := 3 }],
                   total_len := 3, l2_offset := 0, l3_offset := 1,
                   l4_offset := 2, user_context := 8 })
      = pktBytes { chain := [{ base := 50, region := [1, 2, 3, 4, 5], head_offset := 1,
                               data_len := 3 }],
                   total_len := 3, l2_offset := 0, l3_offset := 1,
                   l4_offset := 2, user_context := 8 } :=
  ⟨by decide,
   ((odp_packet_copy_spec
      { chain := [{ base := 0, region := [9, 9, 9], head_offset := 0, data_len := 1 },
                  { base := 10, region := [9, 9, 9, 9], head_offset := 0, data_len := 1 }],
        total_len := 2, l2_offset := 0, l3_offset := 0,
        l4_offset := 0, user_context := 0 }
      { chain := [{ base := 50, region := [1, 2, 3, 4, 5], head_offset := 1,
                    data_len := 3 }],
        total_len := 3, l2_offset := 0, l3_offset := 1,
        l4_offset := 2, user_context := 8 }
      (by decide)).1 (by decide)).2.2.2.2.2.2⟩

/-- C9: after `user_ptr_set(p, X)`, `user_ptr(p)` returns `X`; after a
subsequent `user_u64_set(p, Y)`, `user_u64(p)` returns `Y` - the single
shared slot holds the last value written. -/
theorem user_context_last_write_wins (p : Packet) (x y : Nat) :
    odp_packet_user_ptr (odp_packet_user_ptr_set p x) = x
    ∧ (y < 2 ^ 64 →
        odp_packet_user_u64
          (odp_packet_user_u64_set (odp_packet_user_ptr_set p x) y) = y) := by
  constructor
  · rfl
  · intro h
    simp only [odp_packet_user_u64, odp_packet_user_u64_set, odp_packet_user_ptr_set]
    rw [Nat.mod_mod_of_dvd _ dvd_rfl, Nat.mod_eq_of_lt h]

theorem push_head_base (s : Seg) (len a : Nat) (s' : Seg)
    (h : odp_packet_seg_push_head s len = some (a, s')) : s'.base = s.base := by
  by_cases hc : len ≤ s.head_offset
  · simp [odp_packet_seg_push_head, hc] at h
    rw [← h.2]
  · simp [odp_packet_seg_push_head, hc] at h

theorem pull_head_base (s : Seg) (len a : Nat) (s' : Seg)
    (h : odp_packet_seg_pull_head s len = some (a, s')) : s'.base = s.base := by
  by_cases hc : len ≤ s.data_len
  · simp [odp_packet_seg_pull_head, hc] at h
    rw [← h.2]
  · simp [odp_packet_seg_pull_head, hc] at h

theorem push_tail_base (s : Seg) (len a : Nat) (s' : Seg)
    (h : odp_packet_seg_push_tail s len = some (a, s')) : s'.base = s.base := by
  by_cases hc : len ≤ segTailroom s
  · simp [odp_packet_seg_push_tail, hc] at h
    rw [← h.2]
  · simp [odp_packet_seg_push_tail, hc] at h

theorem pull_tail_base (s : Seg) (len a : Nat) (s' : Seg)
    (h : odp_packet_seg_pull_tail s len = some (a, s')) : s'.base = s.base := by
  by_cases hc : len ≤ s.data_len
  · simp [odp_packet_seg_pull_tail, hc] at h
    rw [← h.2]
  · simp [odp_packet_seg_pull_tail, hc] at h

theorem map_base_set (l : List Seg) (i : Nat) (s s' : Seg)
    (hget : l[i]? = some s) (hbase : s'.base = s.base) :
    (l.set i s').map Seg.base = l.map Seg.base := by
  induction l generalizing i with
  | nil => simp at hget
  | cons a t ih =>
    cases i with
    | zero =>
      simp only [List.getElem?_cons_zero, Option.some.injEq] at hget
      subst hget
      simp [hbase]
    | succ j =>
      simp only [List.getElem?_cons_succ] at hget
      simp [ih j hget]

theorem addr_set_of_base_eq (p : Packet) (i : Nat) (s s' : Seg)
    (hs : p.chain[i]? = some s) (hb : s'.base = s.base) :
    odp_packet_addr { p with chain := p.chain.set i s' } = odp_packet_addr p := by
  rw [odp_packet_addr, odp_packet_addr]
  simp only
  rw [map_base_set p.chain i s s' hs hb]

theorem addr_tryPktPushHead (p : Packet) (i len : Nat) :
    odp_packet_addr (tryPktPushHead p i len) = odp_packet_addr p := by
  rcases hs : p.chain[i]? with _ | s
  · unfold tryPktPushHead pktSegPushHead
    simp only [hs]
  · rcases hp : odp_packet_seg_push_head s len with _ | ⟨a, s'⟩
    · unfold tryPktPushHead pktSegPushHead
      simp only [hs, hp]
    · have hres : tryPktPushHead p i len = { p with chain := p.chain.set i s' } := by
        unfold tryPktPushHead pktSegPushHead
        simp only [hs, hp]
      rw [hres]
      exact addr_set_of_base_eq p i s s' hs (push_head_base s len a s' hp)

theorem addr_tryPktPullHead (p : Packet) (i len : Nat) :
    odp_packet_addr (tryPktPullHead p i len) = odp_packet_addr p := by
  rcases hs : p.chain[i]? with _ | s
  · unfold tryPktPullHead pktSegPullHead
    simp only [hs]
  · rcases hp : odp_packet_seg_pull_head s len with _ | ⟨a, s'⟩
    · unfold tryPktPullHead pktSegPullHead
      simp only [hs, hp]
    · have hres : tryPktPullHead p i len = { p with chain := p.chain.set i s' } := by
        unfold tryPktPullHead pktSegPullHead
        simp only [hs, hp]
      rw [hres]
      exact addr_set_of_base_eq p i s s' hs (pull_head_base s len a s' hp)

theorem addr_tryPktPushTail (p : Packet) (i len : Nat) :
    odp_packet_addr (tryPktPushTail p i len) = odp_packet_addr p := by
  rcases hs : p.chain[i]? with _ | s
  · unfold tryPktPushTail pktSegPushTail
    simp only [hs]
  · rcases hp : odp_packet_seg_push_tail s len with _ | ⟨a, s'⟩
    · unfold tryPktPushTail pktSegPushTail
      simp only [hs, hp]
    · have hres : tryPktPushTail p i len = { p with chain := p.chain.set i s' } := by
        unfold tryPktPushTail pktSegPushTail
        simp only [hs, hp]
      rw [hres]
      exact addr_set_of_base_eq p i s s' hs (push_tail_base s len a s' hp)

theorem addr_tryPktPullTail (p : Packet) (i len : Nat) :
    odp_packet_addr (tryPktPullTail p i len) = odp_packet_addr p := by
  rcases hs : p.chain[i]? with _ | s
  · unfold tryPktPullTail pktSegPullTail
    simp only [hs]
  · rcases hp : odp_packet_seg_pull_tail s len with _ | ⟨a, s'⟩
    · unfold tryPktPullTail pktSegPullTail
      simp only [hs, hp]
    · have hres : tryPktPullTail p i len = { p with chain := p.chain.set i s' } := by
        unfold tryPktPullTail pktSegPullTail
        simp only [hs, hp]
      rw [hres]
      exact addr_set_of_base_eq p i s s' hs (pull_tail_base s len a s' hp)

/-- C10: the buffer start address `odp_packet_addr` is fixed - it is
unchanged by every push/pull primitive (successful or not), every offset
setter, `set_len`, `reset`, and both user-context setters; only the data
pointer may move. -/
theorem odp_packet_addr_fixed (p : Packet) (i len offset n x : Nat) :
    odp_packet_addr (tryPktPushHead p i len) = odp_packet_addr p
    ∧ odp_packet_addr (tryPktPullHead p i len) = odp_packet_addr p
    ∧ odp_packet_addr (tryPktPushTail p i len) = odp_packet_addr p
    ∧ odp_packet_addr (tryPktPullTail p i len) = odp_packet_addr p
    ∧ odp_packet_addr (tryL2OffsetSet p offset) = odp_packet_addr p
    ∧ odp_packet_addr (tryL3OffsetSet p offset) = odp_packet_addr p
    ∧ odp_packet_addr (tryL4OffsetSet p offset) = odp_packet_addr p
    ∧ odp_packet_addr (odp_packet_set_len p n) = odp_packet_addr p
    ∧ odp_packet_addr (tryReset p n) = odp_packet_addr p
    ∧ odp_packet_addr (odp_packet_user_ptr_set p x) = odp_packet_addr p
    ∧ odp_packet_addr (odp_packet_user_u64_set p x) = odp_packet_addr p := by
  refine ⟨addr_tryPktPushHead p i len, addr_tryPktPullHead p i len,
    addr_tryPktPushTail p i len, addr_tryPktPullTail p i len,
    ?_, ?_, ?_, rfl, ?_, rfl, rfl⟩
  · by_cases h : offset < p.total_len <;>
      simp [tryL2OffsetSet, odp_packet_l2_offset_set, odp_packet_addr, h]
  · by_cases h : offset < p.total_len <;>
      simp [tryL3OffsetSet, odp_packet_l3_offset_set, odp_packet_addr, h]
  · by_cases h : offset < p.total_len <;>
      simp [tryL4OffsetSet, odp_packet_l4_offset_set, odp_packet_addr, h]
  · by_cases h : n < pktBufLen p - ODP_CONFIG_PACKET_HEADROOM <;>
      simp [tryReset, odp_packet_reset, odp_packet_addr, h]

/-- C9 (witness): the user-context contract instantiated on a concrete
packet with `X = 12345` and `Y = 67890`. -/
theorem user_context_last_write_wins_witness :
    ((67890 : Nat) < 2 ^ 64)
    ∧ odp_packet_user_u64
        (odp_packet_user_u64_set
          (odp_packet_user_ptr_set
            { chain := [], total_len := 0, l2_offset := 0,
              l3_offset := 0, l4_offset := 0, user_context := 0 } 12345) 67890)
      = 67890 :=
  ⟨by decide,
   (user_context_last_write_wins
      { chain := [], total_len := 0, l2_offset := 0,
        l3_offset := 0, l4_offset := 0, user_context := 0 } 12345 67890).2
     (by decide)⟩

end ODP
